import Mathlib

/-!
# Verification of the wordgames-client core

Shallow embedding of the transport bridge, protocol decoder and round-state
reducer of the wordgames client (src/main.rs, src/utils.rs), together with
proofs of the specified properties.

Modelling conventions:
* Absolute timestamps (the Rust `OffsetDateTime`) are modelled as `Int`
  (seconds on an absolute axis); the library ISO-8601 parser
  (`OffsetDateTime::parse .. Iso8601`) is an external dependency, so it is
  modelled as an arbitrary parameter `parseTs : String → Option Int`
  (`none` is a parse failure, matching the `.ok()` call in the source).
* The external `serde_json` text-to-value parser is likewise a parameter
  `jparse : String → Option Json` over an explicit JSON value type; the
  repository-owned part of deserialization — the adjacently tagged layout
  `#[serde(tag = "type", content = "content")]` derived for `ServerMessage`
  — is embedded concretely as `ServerMessage.fromJson`.
* The worker loop of `connect` (src/main.rs lines 111-156; the identical
  loop in src/utils.rs) is embedded as a step function on an explicit
  `WorkerState`, with the socket behaviour given by finite scripts of read
  outcomes and write outcomes.
-/

/-- A JSON value, as produced by the external text parser. -/
inductive Json where
  | null : Json
  | bool (b : Bool) : Json
  | num (n : Int) : Json
  | str (s : String) : Json
  | arr (elems : List Json) : Json
  | obj (fields : List (String × Json)) : Json

/-- First-match lookup of a field in a JSON object body. -/
def lookupField (fields : List (String × Json)) (key : String) : Option Json :=
  match fields with
  | [] => none
  | (k, v) :: rest => if k = key then some v else lookupField rest key

/-- The inbound message type of src/main.rs lines 161-174:
`enum ServerMessage` with serde tag "type" and content "content". -/
inductive ServerMessage where
  | ChatMessage (message : String)
  | OngoingRoundInfo (word_to_guess : String) (round_finish_time : String)
  | FinishedRoundInfo (word_answer : String) (to_next_round_time : String)
  | FinishedGame
deriving DecidableEq, Repr

/-- The adjacently tagged deserialization derived by
`#[derive(Deserialize)] #[serde(tag = "type", content = "content")]`
on `ServerMessage`: the "type" field selects the variant, the "content"
field carries the payload; any missing field, unknown discriminant or
wrongly-typed payload is a deserialization error (`none`). -/
def ServerMessage.fromJson (j : Json) : Option ServerMessage :=
  match j with
  | .obj fields =>
    match lookupField fields "type" with
    | some (.str tag) =>
      if tag = "ChatMessage" then
        match lookupField fields "content" with
        | some (.str s) => some (.ChatMessage s)
        | _ => none
      else if tag = "OngoingRoundInfo" then
        match lookupField fields "content" with
        | some (.obj cf) =>
          match lookupField cf "word_to_guess", lookupField cf "round_finish_time" with
          | some (.str w), some (.str t) => some (.OngoingRoundInfo w t)
          | _, _ => none
        | _ => none
      else if tag = "FinishedRoundInfo" then
        match lookupField fields "content" with
        | some (.obj cf) =>
          match lookupField cf "word_answer", lookupField cf "to_next_round_time" with
          | some (.str w), some (.str t) => some (.FinishedRoundInfo w t)
          | _, _ => none
        | _ => none
      else if tag = "FinishedGame" then
        match lookupField fields "content" with
        | none => some .FinishedGame
        | some .null => some .FinishedGame
        | some _ => none
      else none
    | _ => none
  | _ => none

/-- `serde_json::from_str::<ServerMessage>(&message)` of src/main.rs line 191:
parse the frame text to a JSON value (external parser `jparse`), then apply
the derived deserialization. -/
def from_str (jparse : String → Option Json) (message : String) : Option ServerMessage :=
  (jparse message).bind ServerMessage.fromJson

/-- The total decoder of src/main.rs lines 191-192:
`serde_json::from_str::<ServerMessage>(&message).unwrap_or_else(|_|
ServerMessage::ChatMessage("Error parsing message".to_string()))`. -/
def decodeServerMessage (jparse : String → Option Json) (message : String) : ServerMessage :=
  (from_str jparse message).getD (.ChatMessage "Error parsing message")

/-- Decoding a whole sequence of inbound frames, one event per frame. -/
def decodeAll (jparse : String → Option Json) (frames : List String) : List ServerMessage :=
  frames.map (decodeServerMessage jparse)

/-- The application state of src/main.rs lines 176-186 (`struct
WordgamesClient`), without the websocket handle, which is modelled
separately as `WorkerState`. `timer_finish_time : Option OffsetDateTime`
becomes `Option Int`. -/
structure WordgamesClient where
  err_texts : List String
  messages : List String
  message_to_send : String
  server_url : String
  word_box_guide : String
  timer_finish_time : Option Int
  word_box : String
deriving DecidableEq, Repr

/-- One inbound item of the worker channel, `Result<String, String>`:
`ok` carries a received frame, `err` a transport error string. -/
inductive WsResult where
  | ok (message : String)
  | err (e : String)
deriving DecidableEq, Repr

/-- The effect of one decoded `ServerMessage` on the client state: the four
match arms of src/main.rs lines 194-219 inside `ws_result_received`. -/
def applyServerMessage (parseTs : String → Option Int) (c : WordgamesClient)
    (msg : ServerMessage) : WordgamesClient :=
  match msg with
  | .ChatMessage message =>
    { c with messages := c.messages ++ [message] }
  | .FinishedGame =>
    { c with timer_finish_time := none
             word_box_guide := "Waiting Round Start!"
             word_box := "" }
  | .FinishedRoundInfo word_answer to_next_round_time =>
    { c with timer_finish_time := parseTs to_next_round_time
             word_box_guide := "Time\x27s up! The answer is:"
             word_box := word_answer }
  | .OngoingRoundInfo word_to_guess round_finish_time =>
    { c with timer_finish_time := parseTs round_finish_time
             word_box_guide := "Please guess:"
             word_box := word_to_guess }

/-- `WordgamesClient::ws_result_received` (src/main.rs lines 189-225):
an `Ok` frame is decoded (with the constant chat-message fallback) and
folded into the state; an `Err` transport error is appended to
`err_texts`. -/
def ws_result_received (parseTs : String → Option Int)
    (jparse : String → Option Json) (c : WordgamesClient)
    (result : WsResult) : WordgamesClient :=
  match result with
  | .ok message => applyServerMessage parseTs c (decodeServerMessage jparse message)
  | .err e => { c with err_texts := c.err_texts ++ [e] }

/-- The round-phase fields of the client state: displayed word, guide text
and stored deadline. -/
def roundFields (c : WordgamesClient) : String × String × Option Int :=
  (c.word_box, c.word_box_guide, c.timer_finish_time)

/-- The specification round-phase type: `Idle`, `Guessing` or `Revealed`
(the deadline is an `Option` because the source stores
`timer_finish_time : Option OffsetDateTime`). -/
inductive RoundState where
  | Idle
  | Guessing (word : String) (deadline : Option Int)
  | Revealed (answer : String) (nextDeadline : Option Int)
deriving DecidableEq, Repr

/-- Classification of the client round fields into the specification
round phase, keyed by the guide text the reducer writes. -/
def roundStateOf (c : WordgamesClient) : RoundState :=
  if c.word_box_guide = "Please guess:" then
    .Guessing c.word_box c.timer_finish_time
  else if c.word_box_guide = "Time\x27s up! The answer is:" then
    .Revealed c.word_box c.timer_finish_time
  else .Idle

/-- Remaining time as displayed by src/main.rs lines 341-344:
`(time - OffsetDateTime::now_utc())`, the stored deadline minus the
current clock, recomputed at query time. -/
def remaining (deadline now : Int) : Int := deadline - now

/-- The timer part of the label of src/main.rs lines 338-345:
present exactly when a deadline is stored, and then equal to
`remaining deadline now`. -/
def timerDisplay (c : WordgamesClient) (now : Int) : Option Int :=
  c.timer_finish_time.map (fun t => remaining t now)

/-- The message-fetch step at the top of `WordgamesClient::update`
(src/main.rs lines 266-272): `if let Ok(result) = receiver.try_recv()`
processes at most one queued inbound item per tick. The inbound channel
is modelled as the FIFO list of currently queued items; the function
returns the remaining queue and the updated client. -/
def update_fetch (parseTs : String → Option Int)
    (jparse : String → Option Json) (queue : List WsResult)
    (c : WordgamesClient) : List WsResult × WordgamesClient :=
  match queue with
  | [] => ([], c)
  | r :: rest => (rest, ws_result_received parseTs jparse c r)

/-- One outcome of a `socket.read()` call (src/main.rs lines 130-145):
a received frame, the absorbed would-block condition, or any other
read error (fatal). -/
inductive ReadResult where
  | frame (s : String)
  | wouldBlock
  | fatal (e : String)
deriving DecidableEq, Repr

/-- State of one connection worker together with its channels and socket.

* `shutdownSignaled` — a `()` has been sent on the shutdown channel;
* `sendQueue` — the outbound mpsc channel contents, FIFO;
* `recvQueue` — the inbound mpsc channel contents produced by the worker;
* `written` — the messages successfully written to the socket, in order;
* `reads` — the socket read script: the outcomes of the successive
  `socket.read()` calls (an exhausted script reads as would-block);
* `writeResults` — the socket write script: for each successive
  `socket.send`, `none` is success and `some e` failure with error `e`
  (an exhausted script writes successfully);
* `alive` — the worker thread is still in its loop. -/
structure WorkerState where
  shutdownSignaled : Bool
  sendQueue : List String
  recvQueue : List WsResult
  written : List String
  reads : List ReadResult
  writeResults : List (Option String)
  alive : Bool
deriving DecidableEq, Repr

/-- The read part of one worker iteration, src/main.rs lines 130-145:
a frame is forwarded as one `ok` inbound item; would-block is absorbed;
any other error is forwarded as one `err` item and the loop breaks. -/
def readPhase (s : WorkerState) : WorkerState :=
  match s.reads with
  | .frame msg :: rest =>
    { s with reads := rest, recvQueue := s.recvQueue ++ [.ok msg] }
  | .wouldBlock :: rest =>
    { s with reads := rest }
  | .fatal e :: rest =>
    { s with reads := rest, recvQueue := s.recvQueue ++ [.err e], alive := false }
  | [] => s

/-- One iteration of the worker loop of `connect`, src/main.rs lines
114-155 (the loop of `get_websocket_connection` in src/utils.rs is
identical up to the repaint cadence): (i) if the shutdown signal is
present, break; (ii) `try_recv` at most one outbound message and write
it, breaking with one `err` inbound item on write failure; (iii) attempt
one non-blocking read (`readPhase`). A worker that has left its loop
(`alive = false`) does nothing. The repaint throttling and the fixed
sleep do not affect the queue contents and are not modelled. -/
def workerStep (s : WorkerState) : WorkerState :=
  if s.alive = false then s
  else if s.shutdownSignaled then { s with alive := false }
  else
    match s.sendQueue with
    | m :: rest =>
      match s.writeResults with
      | some e :: wrest =>
        { s with sendQueue := rest, writeResults := wrest,
                 recvQueue := s.recvQueue ++ [.err e], alive := false }
      | none :: wrest =>
        readPhase { s with sendQueue := rest, writeResults := wrest,
                           written := s.written ++ [m] }
      | [] =>
        readPhase { s with sendQueue := rest, written := s.written ++ [m] }
    | [] => readPhase s

/-- `sender.send(message)` from the consumer side (src/main.rs line 250):
an mpsc send succeeds, appending to the outbound FIFO, as long as the
worker still holds the receiving end (it drops it when its loop breaks);
afterwards it fails with a `SendError` (`false`). -/
def sendMessage (s : WorkerState) (m : String) : WorkerState × Bool :=
  if s.alive then ({ s with sendQueue := s.sendQueue ++ [m] }, true)
  else (s, false)

/-- `shutdown_tx.send(())` from `disconnect_button_clicked`
(src/main.rs lines 236-239). -/
def signalShutdown (s : WorkerState) : WorkerState :=
  { s with shutdownSignaled := true }

/-- One interleaving action on a connection: a consumer `send`, the
consumer `disconnect` (shutdown signal), or one worker-loop iteration. -/
inductive Act where
  | send (m : String)
  | disconnect
  | step
deriving DecidableEq, Repr

/-- Run an interleaving of consumer actions and worker iterations,
collecting the success result of each `send` call in order. -/
def runTrace (s : WorkerState) : List Act → WorkerState × List Bool
  | [] => (s, [])
  | .send m :: rest =>
    ((runTrace (sendMessage s m).1 rest).1,
      (sendMessage s m).2 :: (runTrace (sendMessage s m).1 rest).2)
  | .disconnect :: rest => runTrace (signalShutdown s) rest
  | .step :: rest => runTrace (workerStep s) rest

/-- `true` when an inbound item is a transport error (`Err`). -/
def WsResult.isErr : WsResult → Bool
  | .ok _ => false
  | .err _ => true

/-- No transport-error item occurs in the list. -/
def noErr (l : List WsResult) : Bool :=
  l.all (fun r => !r.isErr)

/-- Every transport-error item of the inbound log, if any, is the last
item: all items before the last are non-errors. -/
def errOnlyLast (l : List WsResult) : Bool :=
  noErr l.dropLast

/-- Invariant tying the inbound log to the worker liveness: any
transport error is the final inbound item, and once one is present the
worker has stopped. -/
def terminalErrInv (s : WorkerState) : Prop :=
  errOnlyLast s.recvQueue = true ∧ (noErr s.recvQueue = false → s.alive = false)

instance (s : WorkerState) : Decidable (terminalErrInv s) := by
  unfold terminalErrInv; infer_instance

/-- A concrete client state in the middle of a round (word OLD, stored
deadline 100), used as a test state for the frame-effect properties. -/
def sampleGuessing : WordgamesClient :=
  { err_texts := [], messages := [], message_to_send := "", server_url := "",
    word_box_guide := "Please guess:", timer_finish_time := some 100,
    word_box := "OLD" }

/-- A concrete external JSON text parser: it maps the frame named
"frame-bad-time" to an OngoingRoundInfo object whose timestamp string is
"badtime", the frame named "frame-chat" to a ChatMessage object, and
fails on every other input. -/
def sampleJparse : String → Option Json := fun s =>
  if s = "frame-bad-time" then
    some (.obj [("type", .str "OngoingRoundInfo"),
                ("content", .obj [("word_to_guess", .str "NEW"),
                                  ("round_finish_time", .str "badtime")])])
  else if s = "frame-chat" then
    some (.obj [("type", .str "ChatMessage"), ("content", .str "hi")])
  else none

/-- A concrete external timestamp parser: it parses only the string
"good" (to time 100) and fails on everything else. -/
def sampleParseTs : String → Option Int := fun s =>
  if s = "good" then some 100 else none

/-- A fresh worker state right after a successful connect: no signal,
empty queues, and a socket whose reads all would-block (empty scripts). -/
def freshWorker : WorkerState :=
  { shutdownSignaled := false, sendQueue := [], recvQueue := [],
    written := [], reads := [], writeResults := [], alive := true }

/-- The interleaving of specification Scenario 3: two consumer sends,
then the disconnect signal, all before the worker runs again; then the
worker is scheduled twice. -/
def twoSendsThenDisconnect : List Act :=
  [.send "hello", .send "hello", .disconnect, .step, .step]

/-- A worker whose next socket read fails fatally (a transport reset). -/
def fatalReadWorker : WorkerState :=
  { freshWorker with reads := [.fatal "reset", .frame "late"] }

/-- A worker with two queued outbound items and the shutdown signal
already sent. -/
def signaledWorker : WorkerState :=
  { freshWorker with shutdownSignaled := true, sendQueue := ["hello", "hello"] }

/-! ## Decoder properties -/

/-- C1: the decoder is total and 1:1 — decoding a sequence of inbound
frames yields exactly one event per frame, whatever the frames are, and
a frame that fails deserialization yields the synthetic fallback event
rather than any failure of the stream. -/
theorem C1_decoder_total_one_to_one (jparse : String → Option Json)
    (frames : List String) :
    (decodeAll jparse frames).length = frames.length ∧
    ∀ frame, from_str jparse frame = none →
      decodeServerMessage jparse frame = .ChatMessage "Error parsing message" := by
  constructor
  · simp [decodeAll]
  · intro frame h
    simp [decodeServerMessage, h]

theorem C1_decoder_total_one_to_one_witness :
    (decodeAll (fun _ => none) ["frame-a", "frame-b"]).length = 2 ∧
    decodeServerMessage (fun _ => none) "frame-a" =
      .ChatMessage "Error parsing message" :=
  ⟨(C1_decoder_total_one_to_one (fun _ => none) ["frame-a", "frame-b"]).1,
   (C1_decoder_total_one_to_one (fun _ => none) ["frame-a", "frame-b"]).2
     "frame-a" rfl⟩

/-! ## Reducer properties -/

/-- C3: the round reducer is total and follows the transition table: from
any current client state, OngoingRoundInfo (RoundStarted) yields the
Guessing phase with the word and deadline of the event, FinishedRoundInfo
(RoundEnded) yields the Revealed phase with the answer and next deadline,
and FinishedGame yields the Idle phase — including from states where the
event is unexpected, with no rejected case. -/
theorem C3_reducer_total_transition_table (parseTs : String → Option Int)
    (c : WordgamesClient) (w t a u : String) :
    (∀ msg : ServerMessage, ∃ c', applyServerMessage parseTs c msg = c') ∧
    roundStateOf (applyServerMessage parseTs c (.OngoingRoundInfo w t)) =
      .Guessing w (parseTs t) ∧
    roundStateOf (applyServerMessage parseTs c (.FinishedRoundInfo a u)) =
      .Revealed a (parseTs u) ∧
    roundStateOf (applyServerMessage parseTs c .FinishedGame) = .Idle := by
  refine ⟨fun msg => ⟨_, rfl⟩, ?_, ?_, ?_⟩ <;>
    simp [applyServerMessage, roundStateOf]

/-! ## Remaining-time properties -/

/-- C7: for every client state carrying a deadline, the displayed
remaining time equals deadline minus now, recomputed at query time; it is
monotonically non-increasing as now advances, and past the deadline it is
a well-defined negative value, not clamped to zero. -/
theorem C7_remaining_time (c : WordgamesClient) (d now now' : Int)
    (hd : c.timer_finish_time = some d) :
    timerDisplay c now = some (remaining d now) ∧
    remaining d now = d - now ∧
    (now ≤ now' → remaining d now' ≤ remaining d now) ∧
    (d < now → remaining d now < 0) := by
  refine ⟨by simp [timerDisplay, hd], rfl, ?_, ?_⟩ <;>
    · intro h
      simp only [remaining]
      omega

theorem C7_remaining_time_witness :
    timerDisplay sampleGuessing 103 = some (remaining 100 103) ∧
    remaining 100 103 = 100 - 103 ∧
    (103 ≤ (105 : Int) → remaining 100 105 ≤ remaining 100 103) ∧
    (100 < (103 : Int) → remaining 100 103 < 0) :=
  C7_remaining_time sampleGuessing 100 103 105 rfl

/-! ## Frame-effect properties -/

/-- C8: processing a chat message (including the decoder fallback, the
only notice the code produces) or a transport error only appends to the
message log or the error log respectively and leaves the round-phase
fields (word, guide text, stored deadline) exactly unchanged. -/
theorem C8_log_events_leave_round_state (parseTs : String → Option Int)
    (jparse : String → Option Json) (c : WordgamesClient)
    (m e frame : String)
    (hdec : decodeServerMessage jparse frame = .ChatMessage m) :
    ws_result_received parseTs jparse c (.ok frame) =
      { c with messages := c.messages ++ [m] } ∧
    ws_result_received parseTs jparse c (.err e) =
      { c with err_texts := c.err_texts ++ [e] } ∧
    roundFields (ws_result_received parseTs jparse c (.ok frame)) =
      roundFields c ∧
    roundFields (ws_result_received parseTs jparse c (.err e)) =
      roundFields c := by
  refine ⟨?_, rfl, ?_, rfl⟩ <;>
    simp [ws_result_received, hdec, applyServerMessage, roundFields]

theorem C8_log_events_leave_round_state_witness :
    ws_result_received sampleParseTs sampleJparse sampleGuessing
        (.ok "nonsense") =
      { sampleGuessing with
          messages := sampleGuessing.messages ++ ["Error parsing message"] } ∧
    ws_result_received sampleParseTs sampleJparse sampleGuessing
        (.err "reset") =
      { sampleGuessing with
          err_texts := sampleGuessing.err_texts ++ ["reset"] } ∧
    roundFields (ws_result_received sampleParseTs sampleJparse sampleGuessing
        (.ok "nonsense")) = roundFields sampleGuessing ∧
    roundFields (ws_result_received sampleParseTs sampleJparse sampleGuessing
        (.err "reset")) = roundFields sampleGuessing :=
  C8_log_events_leave_round_state sampleParseTs sampleJparse sampleGuessing
    "Error parsing message" "reset" "nonsense" (by decide)

/-- C10: the fallback for a frame that fails deserialization is the
constant chat message, discarding the frame text and the reason, and it
is appended to the ordinary chat-message list, with the error-text sink
and every other field untouched. -/
theorem C10_fallback_constant_chat (parseTs : String → Option Int)
    (jparse : String → Option Json) (c : WordgamesClient) (frame : String)
    (h : from_str jparse frame = none) :
    decodeServerMessage jparse frame = .ChatMessage "Error parsing message" ∧
    ws_result_received parseTs jparse c (.ok frame) =
      { c with messages := c.messages ++ ["Error parsing message"] } := by
  have hdec : decodeServerMessage jparse frame =
      .ChatMessage "Error parsing message" := by
    simp [decodeServerMessage, h]
  exact ⟨hdec, by simp [ws_result_received, hdec, applyServerMessage]⟩

theorem C10_fallback_constant_chat_witness :
    decodeServerMessage sampleJparse "nonsense" =
      .ChatMessage "Error parsing message" ∧
    ws_result_received sampleParseTs sampleJparse sampleGuessing
        (.ok "nonsense") =
      { sampleGuessing with
          messages := sampleGuessing.messages ++ ["Error parsing message"] } :=
  C10_fallback_constant_chat sampleParseTs sampleJparse sampleGuessing
    "nonsense" (by decide)

/-- C2 counterexample: a concrete OngoingRoundInfo frame whose timestamp
string fails to parse. Processing it from a concrete mid-round state
changes the round-phase fields (the word becomes the new word and the
stored deadline is cleared), and no notice is produced anywhere: the
message log and the error log are both unchanged. This refutes the claim
that such a frame yields a notice and leaves the round state as it was. -/
theorem C2_counterexample :
    roundFields (ws_result_received sampleParseTs sampleJparse sampleGuessing
        (.ok "frame-bad-time")) ≠ roundFields sampleGuessing ∧
    (ws_result_received sampleParseTs sampleJparse sampleGuessing
        (.ok "frame-bad-time")).messages = sampleGuessing.messages ∧
    (ws_result_received sampleParseTs sampleJparse sampleGuessing
        (.ok "frame-bad-time")).err_texts = sampleGuessing.err_texts := by
  decide

/-- C2 amended: a frame of type OngoingRoundInfo or FinishedRoundInfo
whose timestamp fails to parse is still processed without failure and
without any notice, and it is folded into the round state as usual with
the unparseable deadline replaced by no deadline: the word and guide
fields are set from the frame and the stored deadline is cleared, while
the message and error logs stay unchanged. -/
theorem C2_bad_timestamp_amended (parseTs : String → Option Int)
    (jparse : String → Option Json) (c : WordgamesClient)
    (frame w t a u : String) (ht : parseTs t = none) (hu : parseTs u = none) :
    (from_str jparse frame = some (.OngoingRoundInfo w t) →
      ws_result_received parseTs jparse c (.ok frame) =
        { c with timer_finish_time := none
                 word_box_guide := "Please guess:"
                 word_box := w }) ∧
    (from_str jparse frame = some (.FinishedRoundInfo a u) →
      ws_result_received parseTs jparse c (.ok frame) =
        { c with timer_finish_time := none
                 word_box_guide := "Time\x27s up! The answer is:"
                 word_box := a }) := by
  constructor <;> intro h <;>
    simp [ws_result_received, decodeServerMessage, h, applyServerMessage,
          ht, hu]

theorem C2_bad_timestamp_amended_witness :
    ws_result_received sampleParseTs sampleJparse sampleGuessing
        (.ok "frame-bad-time") =
      { sampleGuessing with
          timer_finish_time := none
          word_box_guide := "Please guess:"
          word_box := "NEW" } :=
  (C2_bad_timestamp_amended sampleParseTs sampleJparse sampleGuessing
      "frame-bad-time" "NEW" "badtime" "unused-answer" "badtime"
      (by decide) (by decide)).1 (by decide)

/-! ## Consumer tick properties -/

/-- C9 counterexample: with two inbound events already queued, one render
tick processes only the first; the second stays queued, so it is not the
case that after one tick no already-queued inbound event remains. -/
theorem C9_counterexample :
    (update_fetch sampleParseTs sampleJparse
        [.ok "frame-chat", .ok "frame-chat"] sampleGuessing).1 =
      [.ok "frame-chat"] ∧
    (update_fetch sampleParseTs sampleJparse
        [.ok "frame-chat", .ok "frame-chat"] sampleGuessing).1 ≠ [] := by
  decide

/-- C9 amended: on each render tick the consumer processes at most one
queued inbound event — the oldest — through the reducer, leaving the
rest of the queue for later ticks; with an empty queue the tick changes
nothing. -/
theorem C9_one_event_per_tick_amended (parseTs : String → Option Int)
    (jparse : String → Option Json) (q : List WsResult)
    (c : WordgamesClient) :
    (update_fetch parseTs jparse q c).1 = q.tail ∧
    (q = [] → update_fetch parseTs jparse q c = ([], c)) ∧
    (∀ r rest, q = r :: rest →
      update_fetch parseTs jparse q c =
        (rest, ws_result_received parseTs jparse c r)) := by
  cases q <;> simp [update_fetch]

theorem C9_one_event_per_tick_amended_witness :
    (update_fetch sampleParseTs sampleJparse
        [WsResult.ok "frame-chat", WsResult.ok "frame-chat"]
        sampleGuessing).1 = [WsResult.ok "frame-chat"] ∧
    update_fetch sampleParseTs sampleJparse
        [WsResult.ok "frame-chat", WsResult.ok "frame-chat"]
        sampleGuessing =
      ([WsResult.ok "frame-chat"],
        ws_result_received sampleParseTs sampleJparse sampleGuessing
          (.ok "frame-chat")) :=
  ⟨(C9_one_event_per_tick_amended sampleParseTs sampleJparse
      [WsResult.ok "frame-chat", WsResult.ok "frame-chat"] sampleGuessing).1,
   (C9_one_event_per_tick_amended sampleParseTs sampleJparse
      [WsResult.ok "frame-chat", WsResult.ok "frame-chat"]
      sampleGuessing).2.2 (.ok "frame-chat") [.ok "frame-chat"] rfl⟩

/-! ## Worker-loop lemmas -/

theorem workerStep_dead {s : WorkerState} (h : s.alive = false) :
    workerStep s = s := by
  simp [workerStep, h]

theorem iterate_workerStep_dead (n : Nat) (s : WorkerState)
    (h : s.alive = false) : workerStep^[n] s = s := by
  induction n with
  | zero => rfl
  | succ n ih => rw [Function.iterate_succ_apply, workerStep_dead h, ih]

theorem workerStep_shutdown {s : WorkerState} (ha : s.alive = true)
    (hs : s.shutdownSignaled = true) :
    workerStep s = { s with alive := false } := by
  simp [workerStep, ha, hs]

theorem readPhase_written (s : WorkerState) :
    (readPhase s).written = s.written := by
  unfold readPhase; split <;> rfl

theorem readPhase_sendQueue (s : WorkerState) :
    (readPhase s).sendQueue = s.sendQueue := by
  unfold readPhase; split <;> rfl

theorem runTrace_dead_frozen (trace : List Act) : ∀ s : WorkerState,
    s.alive = false →
    ((runTrace s trace).1).recvQueue = s.recvQueue ∧
    ((runTrace s trace).1).written = s.written ∧
    ((runTrace s trace).1).alive = false := by
  induction trace with
  | nil => exact fun s h => ⟨rfl, rfl, h⟩
  | cons a rest ih =>
    intro s h
    cases a with
    | send m =>
      simpa [runTrace, sendMessage, h] using ih s h
    | disconnect =>
      simpa [runTrace, signalShutdown] using
        ih { s with shutdownSignaled := true } h
    | step =>
      simpa [runTrace, workerStep_dead h] using ih s h

theorem runTrace_signaled_frozen (trace : List Act) : ∀ s : WorkerState,
    s.shutdownSignaled = true →
    ((runTrace s trace).1).written = s.written := by
  induction trace with
  | nil => exact fun _ _ => rfl
  | cons a rest ih =>
    intro s h
    cases a with
    | send m =>
      by_cases ha : s.alive = true
      · simpa [runTrace, sendMessage, ha] using
          ih { s with sendQueue := s.sendQueue ++ [m] } h
      · have ha' : s.alive = false := by simpa using ha
        simpa [runTrace, sendMessage, ha'] using ih s h
    | disconnect =>
      simpa [runTrace, signalShutdown] using
        ih { s with shutdownSignaled := true } rfl
    | step =>
      by_cases ha : s.alive = true
      · simpa [runTrace, workerStep_shutdown ha h] using
          ih { s with alive := false } h
      · have ha' : s.alive = false := by simpa using ha
        simpa [runTrace, workerStep_dead ha'] using ih s h

theorem noErr_errOnlyLast {l : List WsResult} (h : noErr l = true) :
    errOnlyLast l = true := by
  simp only [noErr, List.all_eq_true] at h
  simp only [errOnlyLast, noErr, List.all_eq_true]
  exact fun r hr => h r (List.dropLast_subset l hr)

theorem errOnlyLast_concat {l : List WsResult} (x : WsResult)
    (h : noErr l = true) : errOnlyLast (l ++ [x]) = true := by
  simpa [errOnlyLast, List.dropLast_concat] using h

theorem noErr_concat_ok {l : List WsResult} (m : String)
    (h : noErr l = true) : noErr (l ++ [.ok m]) = true := by
  simp [noErr, List.all_append, WsResult.isErr]
  simpa [noErr] using h

theorem terminalErrInv_readPhase {s : WorkerState}
    (hne : noErr s.recvQueue = true) : terminalErrInv (readPhase s) := by
  unfold readPhase
  split
  · exact ⟨errOnlyLast_concat _ hne, fun hf => by
      rw [noErr_concat_ok _ hne] at hf; cases hf⟩
  · exact ⟨noErr_errOnlyLast hne, fun hf => by
      rw [hne] at hf; cases hf⟩
  · exact ⟨errOnlyLast_concat _ hne, fun _ => rfl⟩
  · exact ⟨noErr_errOnlyLast hne, fun hf => by
      rw [hne] at hf; cases hf⟩

theorem terminalErrInv_congr {s s' : WorkerState}
    (hq : s'.recvQueue = s.recvQueue) (ha : s'.alive = s.alive)
    (h : terminalErrInv s) : terminalErrInv s' := by
  unfold terminalErrInv at *
  rw [hq, ha]
  exact h

theorem sendMessage_fst_recvQueue (s : WorkerState) (m : String) :
    ((sendMessage s m).1).recvQueue = s.recvQueue := by
  unfold sendMessage; split <;> rfl

theorem sendMessage_fst_alive (s : WorkerState) (m : String) :
    ((sendMessage s m).1).alive = s.alive := by
  unfold sendMessage; split <;> rfl

theorem terminalErrInv_workerStep {s : WorkerState}
    (h : terminalErrInv s) : terminalErrInv (workerStep s) := by
  obtain ⟨h1, h2⟩ := h
  unfold workerStep
  split
  · exact ⟨h1, h2⟩
  next hnd =>
    have ha : s.alive = true := by revert hnd; cases s.alive <;> simp
    have hne : noErr s.recvQueue = true := by
      cases hq : noErr s.recvQueue
      · rw [h2 hq] at ha; cases ha
      · rfl
    split
    · exact ⟨h1, fun _ => rfl⟩
    · split
      · split
        · exact ⟨errOnlyLast_concat _ hne, fun _ => rfl⟩
        · exact terminalErrInv_readPhase hne
        · exact terminalErrInv_readPhase hne
      · exact terminalErrInv_readPhase hne

theorem terminalErrInv_runTrace (trace : List Act) : ∀ s : WorkerState,
    terminalErrInv s → terminalErrInv (runTrace s trace).1 := by
  induction trace with
  | nil => exact fun _ h => h
  | cons a rest ih =>
    intro s h
    cases a with
    | send m =>
      exact ih (sendMessage s m).1
        (terminalErrInv_congr (sendMessage_fst_recvQueue s m)
          (sendMessage_fst_alive s m) h)
    | disconnect =>
      exact ih (signalShutdown s) (terminalErrInv_congr rfl rfl h)
    | step =>
      exact ih (workerStep s) (terminalErrInv_workerStep h)

theorem workerStep_written_cases (s : WorkerState) :
    ((workerStep s).written = s.written ∧
      (workerStep s).sendQueue = s.sendQueue) ∨
    (∃ m rest, s.sendQueue = m :: rest ∧
      (workerStep s).written = s.written ++ [m] ∧
      (workerStep s).sendQueue = rest) ∨
    ((workerStep s).written = s.written ∧ (workerStep s).alive = false) := by
  unfold workerStep
  split
  · exact Or.inl ⟨rfl, rfl⟩
  · split
    · exact Or.inl ⟨rfl, rfl⟩
    · split
      next m rest hq =>
        split
        · exact Or.inr (Or.inr ⟨rfl, rfl⟩)
        · exact Or.inr (Or.inl ⟨m, rest, hq,
            by rw [readPhase_written], by rw [readPhase_sendQueue]⟩)
        · exact Or.inr (Or.inl ⟨m, rest, hq,
            by rw [readPhase_written], by rw [readPhase_sendQueue]⟩)
      · exact Or.inl ⟨by rw [readPhase_written], by rw [readPhase_sendQueue]⟩

theorem iterate_written_prefix (n : Nat) : ∀ s : WorkerState,
    ∃ k, ((workerStep^[n]) s).written = s.written ++ s.sendQueue.take k := by
  induction n with
  | zero => exact fun s => ⟨0, by simp⟩
  | succ n ih =>
    intro s
    rw [Function.iterate_succ_apply]
    rcases workerStep_written_cases s with ⟨hw, hq⟩ |
      ⟨m, rest, hq, hw, hq'⟩ | ⟨hw, hal⟩
    · obtain ⟨k, hk⟩ := ih (workerStep s)
      exact ⟨k, by rw [hk, hw, hq]⟩
    · obtain ⟨k, hk⟩ := ih (workerStep s)
      refine ⟨k + 1, ?_⟩
      rw [hk, hw, hq', hq, List.take_succ_cons, List.append_assoc,
        List.singleton_append]
    · exact ⟨0, by rw [iterate_workerStep_dead n _ hal, hw]; simp⟩

/-! ## Bridge shutdown and failure properties -/

/-- C4 counterexample: in the Scenario-3 interleaving (two sends queued,
then the shutdown signal, all before the worker runs again), both send
calls report success, yet after the worker runs neither queued item has
been written to the socket and no error of any kind is reported on the
inbound queue: the queued outbound items are silently dropped. -/
theorem C4_counterexample :
    (runTrace freshWorker twoSendsThenDisconnect).2 = [true, true] ∧
    ((runTrace freshWorker twoSendsThenDisconnect).1).written = [] ∧
    ((runTrace freshWorker twoSendsThenDisconnect).1).recvQueue = [] ∧
    ((runTrace freshWorker twoSendsThenDisconnect).1).alive = false := by
  decide

/-- C4 amended: when the shutdown signal arrives before the worker
processes the queued items, the send calls still report success and the
queued writes never occur — queued outbound items are silently dropped,
with no SendError — while the items that are written are always an
in-order prefix of the outbound queue, never reordered or partially
written. -/
theorem C4_sends_dropped_on_shutdown_amended :
    ((runTrace freshWorker twoSendsThenDisconnect).2 = [true, true] ∧
      ((runTrace freshWorker twoSendsThenDisconnect).1).written = [] ∧
      ((runTrace freshWorker twoSendsThenDisconnect).1).alive = false) ∧
    ∀ (s : WorkerState) (n : Nat),
      ∃ k, ((workerStep^[n]) s).written = s.written ++ s.sendQueue.take k := by
  exact ⟨by decide, fun s n => iterate_written_prefix n s⟩

/-- C5: any transport error the worker ever puts on the inbound queue is
the final inbound item and the worker has stopped by then, so no further
inbound events are produced after it, under every interleaving; one
iteration hitting a fatal read emits exactly one error item and exits;
once the worker has exited nothing is ever added to the inbound queue;
and a would-block read is absorbed with no event and no exit. -/
theorem C5_transport_error_terminal (s : WorkerState) (trace : List Act)
    (e : String) (rest : List ReadResult) (m : String) (qrest : List String)
    (wrest : List (Option String)) (hinv : terminalErrInv s) :
    terminalErrInv (runTrace s trace).1 ∧
    (s.alive = true → s.shutdownSignaled = false → s.sendQueue = [] →
      s.reads = .fatal e :: rest →
      (workerStep s).recvQueue = s.recvQueue ++ [.err e] ∧
      (workerStep s).alive = false) ∧
    (s.alive = true → s.shutdownSignaled = false →
      s.sendQueue = m :: qrest → s.writeResults = some e :: wrest →
      (workerStep s).recvQueue = s.recvQueue ++ [.err e] ∧
      (workerStep s).alive = false) ∧
    (s.alive = false → ((runTrace s trace).1).recvQueue = s.recvQueue) ∧
    (s.alive = true → s.shutdownSignaled = false → s.sendQueue = [] →
      s.reads = .wouldBlock :: rest → workerStep s = { s with reads := rest }) := by
  refine ⟨terminalErrInv_runTrace trace s hinv, ?_, ?_, ?_, ?_⟩
  · intro ha hs hq hr
    constructor <;> simp [workerStep, readPhase, ha, hs, hq, hr]
  · intro ha hs hq hw
    constructor <;> simp [workerStep, ha, hs, hq, hw]
  · intro ha
    exact (runTrace_dead_frozen trace s ha).1
  · intro ha hs hq hr
    simp [workerStep, readPhase, ha, hs, hq, hr]

theorem C5_transport_error_terminal_witness :
    terminalErrInv (runTrace fatalReadWorker [.step, .step, .step]).1 ∧
    (workerStep fatalReadWorker).recvQueue =
      fatalReadWorker.recvQueue ++ [.err "reset"] ∧
    (workerStep fatalReadWorker).alive = false := by
  obtain ⟨h1, h2, h3, h4, h5⟩ :=
    C5_transport_error_terminal fatalReadWorker
      [.step, .step, .step] "reset" [.frame "late"] "unused" [] [] (by decide)
  exact ⟨h1, (h2 rfl rfl rfl rfl).1, (h2 rfl rfl rfl rfl).2⟩

/-- C6: once the shutdown signal is present, nothing further is ever
written to the socket under any continuation of the interleaving, and a
live worker observes the signal within one loop iteration: its very next
iteration halts immediately without writing. -/
theorem C6_no_write_after_shutdown (s : WorkerState) (trace : List Act)
    (h : s.shutdownSignaled = true) :
    ((runTrace s trace).1).written = s.written ∧
    (s.alive = true → workerStep s = { s with alive := false }) :=
  ⟨runTrace_signaled_frozen trace s h, fun ha => workerStep_shutdown ha h⟩

theorem C6_no_write_after_shutdown_witness :
    ((runTrace signaledWorker [.step, .send "late", .step]).1).written =
      signaledWorker.written ∧
    workerStep signaledWorker = { signaledWorker with alive := false } := by
  have h := C6_no_write_after_shutdown signaledWorker
    [.step, .send "late", .step] rfl
  exact ⟨h.1, h.2 rfl⟩
